import Mathlib

/-!
Shallow embedding of the execution cores of the `esolangs-rs` repository:
the Emmental dialect (`src/src/lib.rs`, a self-contained snapshot that also
appears split across `src/src/state.rs`, `src/src/stack.rs`, `src/src/io.rs`
and `src/emmental/src/interpreter.rs`) and the Mascarpone dialect
(`src/mascarpone/src/*.rs`).

Conventions used throughout the embedding:
* Rust `u8` values are `Nat` with arithmetic taken `% 256` exactly where the
  source uses the `wrapping_*` operations.
* `Vec<T>`-backed stacks become `List T` with the head of the list as the
  top of the stack (`push` is cons).
* `Result<T, E>` becomes the `Res E T` type below; the extra `crash`
  constructor models Rust panics (`todo!()` and `.expect(..)`), which the
  source can reach and which are not part of the typed error taxonomy.
* `HashMap<K, V>` becomes an association list whose `get` returns the first
  matching binding and whose `insert` replaces an existing binding in place
  (the bindings built by the programs under study always have distinct keys,
  so lookup semantics agree with `HashMap`).
* The unbounded recursion of the source (`Program` bodies, `Eval`, `Perform`)
  is made total with an explicit fuel parameter; exhausting fuel is reported
  as a `crash`, mirroring the stack exhaustion such recursion would cause.
-/

/-- Result of executing a piece of the interpreter: a value, a typed error
(Rust `Err`), or a `crash` modelling a Rust panic (`todo!()`, `.expect`). -/
inductive Res (ε : Type) (α : Type) : Type where
  | ok (a : α)
  | err (e : ε)
  | crash (msg : String)

/-- Monadic bind for `Res`, mirroring Rust's `?` operator (errors and
panics propagate). -/
def Res.bind {ε α β : Type} : Res ε α → (α → Res ε β) → Res ε β
  | .ok a, f => f a
  | .err e, _ => .err e
  | .crash m, _ => .crash m

instance {ε : Type} : Monad (Res ε) where
  pure := Res.ok
  bind := Res.bind

namespace Emmental

/-- Emmental symbols are bytes (`type Symbol = u8` in `src/src/lib.rs`),
modelled as `Nat` kept below 256 by the wrapping arithmetic. -/
abbrev Symbol := Nat

/-- The `PrimOp` enum of `src/src/lib.rs` (identical in
`src/emmental/src/interpreter.rs`). -/
inductive PrimOp where
  | nul
  | digit (d : Nat)
  | add
  | sub
  | log2
  | output
  | input
  | enqueue
  | dequeue
  | duplicate
  | supplant
  | eval
  | semicolon
deriving DecidableEq

/-- The `Operation` enum of `src/src/lib.rs`: a primitive, a recorded
program body, or the explicit no-op. -/
inductive Operation where
  | primitive (p : PrimOp)
  | program (body : List Symbol)
  | noOp
deriving DecidableEq

/-- The `Interpreter` struct: a `HashMap<Symbol, Operation>` modelled as an
association list (first binding wins on lookup). -/
structure Interpreter where
  map : List (Symbol × Operation)
deriving DecidableEq

/-- `Interpreter::lookup`: `self.map.get(&sym).unwrap_or(&Operation::NoOp)`. -/
def Interpreter.lookup (i : Interpreter) (sym : Symbol) : Operation :=
  ((i.map.find? fun p => p.1 == sym).map fun p => p.2).getD .noOp

/-- `HashMap::insert`: replace the binding for the key if present, else add
it. -/
def insert_binding : List (Symbol × Operation) → Symbol → Operation → List (Symbol × Operation)
  | [], k, v => [(k, v)]
  | (k', v') :: rest, k, v =>
    if k' = k then (k, v) :: rest else (k', v') :: insert_binding rest k v

/-- `Interpreter::supplant`: `self.map.insert(sym, op)`. -/
def Interpreter.supplant (i : Interpreter) (sym : Symbol) (op : Operation) : Interpreter :=
  ⟨insert_binding i.map sym op⟩

/-- `Interpreter::default()`: digits `'0'..='9'` bound to `Digit(0..=9)`,
then the twelve named primitives, in the source's construction order. -/
def Interpreter.default : Interpreter :=
  ⟨[(48, .primitive (.digit 0)), (49, .primitive (.digit 1)),
    (50, .primitive (.digit 2)), (51, .primitive (.digit 3)),
    (52, .primitive (.digit 4)), (53, .primitive (.digit 5)),
    (54, .primitive (.digit 6)), (55, .primitive (.digit 7)),
    (56, .primitive (.digit 8)), (57, .primitive (.digit 9)),
    (35, .primitive .nul), (43, .primitive .add), (45, .primitive .sub),
    (126, .primitive .log2), (46, .primitive .output), (44, .primitive .input),
    (94, .primitive .enqueue), (118, .primitive .dequeue),
    (58, .primitive .duplicate), (33, .primitive .supplant),
    (63, .primitive .eval), (59, .primitive .semicolon)]⟩

/-- The error strings of the Emmental snapshot, as a typed enum:
`"stack is empty"`, `"queue is empty"`, `"prematurely terminated string"`. -/
inductive Err where
  | stackEmpty
  | queueEmpty
  | prematurelyTerminatedString
deriving DecidableEq

/-- The running state of `src/src/lib.rs` with the `StringIO` channel
inlined: `input` is the remaining input bytes, `output` the bytes written
so far (`StandardIO` is out of scope per the spec). -/
structure State where
  stack : List Symbol
  queue : List Symbol
  interpreter : Interpreter
  input : List Symbol
  output : List Symbol
deriving DecidableEq

/-- `Stack::pop` (errors with "stack is empty" on underflow). -/
def Stack.pop (st : List Symbol) : Res Err (Symbol × List Symbol) :=
  match st with
  | [] => .err .stackEmpty
  | x :: rest => .ok (x, rest)

/-- Accumulating loop of `Stack::pop_string`: pop until the terminator is
popped, building the result front-wise (so it comes out in original push
order). -/
def pop_string_go : List Symbol → Symbol → List Symbol → Res Err (List Symbol × List Symbol)
  | [], _, _ => .err .prematurelyTerminatedString
  | x :: rest, term, acc =>
    if x = term then .ok (acc, rest) else pop_string_go rest term (x :: acc)

/-- `Stack::pop_string(terminator)`. -/
def Stack.pop_string (st : List Symbol) (term : Symbol) : Res Err (List Symbol × List Symbol) :=
  pop_string_go st term []

/-- Rust `u8::wrapping_mul`. -/
def wrapping_mul (a b : Nat) : Nat := a * b % 256

/-- Rust `u8::wrapping_add`. -/
def wrapping_add (a b : Nat) : Nat := (a + b) % 256

/-- Rust `u8::wrapping_sub` (the formula agrees with subtraction mod 256 on
byte values). -/
def wrapping_sub (a b : Nat) : Nat := (a + 256 - b % 256) % 256

/-- `State::step_primop`, parametrised by the recursive entry point used by
the `Eval` arm (`self.interpret_symbol(sym)`).  The `Log2` arm of the source
computes `(n as f64).log2().floor() as u8`; for every byte `1..=255` this is
exactly `Nat.log2`, which is how it is modelled here (`0` yields `8` as in
the source). -/
def step_primop_aux (evalSym : State → Symbol → Res Err State) (p : PrimOp) (s : State) :
    Res Err State :=
  match p with
  | .nul => .ok { s with stack := 0 :: s.stack }
  | .semicolon => .ok { s with stack := 59 :: s.stack }
  | .digit d =>
    match s.stack with
    | [] => .err .stackEmpty
    | sym :: rest =>
      .ok { s with stack := wrapping_add (wrapping_mul sym 10) d :: rest }
  | .add =>
    match s.stack with
    | rhs :: lhs :: rest => .ok { s with stack := wrapping_add lhs rhs :: rest }
    | _ => .err .stackEmpty
  | .sub =>
    match s.stack with
    | rhs :: lhs :: rest => .ok { s with stack := wrapping_sub lhs rhs :: rest }
    | _ => .err .stackEmpty
  | .log2 =>
    match s.stack with
    | [] => .err .stackEmpty
    | sym :: rest =>
      .ok { s with stack := (if sym = 0 then 8 else Nat.log2 sym) :: rest }
  | .output =>
    match s.stack with
    | [] => .err .stackEmpty
    | sym :: rest => .ok { s with stack := rest, output := s.output ++ [sym] }
  | .input =>
    match s.input with
    | [] => .ok { s with stack := 4 :: s.stack }
    | b :: rest => .ok { s with stack := b :: s.stack, input := rest }
  | .enqueue =>
    match s.stack with
    | [] => .err .stackEmpty
    | sym :: _ => .ok { s with queue := s.queue ++ [sym] }
  | .dequeue =>
    match s.queue with
    | [] => .err .queueEmpty
    | q :: qrest => .ok { s with queue := qrest, stack := q :: s.stack }
  | .duplicate =>
    match s.stack with
    | [] => .err .stackEmpty
    | sym :: _ => .ok { s with stack := sym :: s.stack }
  | .supplant =>
    match s.stack with
    | [] => .err .stackEmpty
    | sym :: rest =>
      match Stack.pop_string rest 59 with
      | .ok (prog, rest2) =>
        .ok { s with stack := rest2,
                     interpreter := s.interpreter.supplant sym (.program prog) }
      | .err e => .err e
      | .crash m => .crash m
  | .eval =>
    match s.stack with
    | [] => .err .stackEmpty
    | sym :: rest => evalSym { s with stack := rest } sym

/-- Iteration of `State::run` over a recorded symbol sequence, parametrised
by the dispatcher applied to each symbol (early exit on error, as with the
`?` operator in the source loop). -/
def run_aux (f : State → Symbol → Res Err State) : List Symbol → State → Res Err State
  | [], s => .ok s
  | c :: rest, s =>
    match f s c with
    | .ok s' => run_aux f rest s'
    | .err e => .err e
    | .crash m => .crash m

/-- One dispatch step of `State::interpret_symbol`, parametrised by the
entry point used for the recursive calls (the `Program` arm re-runs the body
and the `Eval` primitive re-dispatches). -/
def interpret_symbol_core (deeper : State → Symbol → Res Err State) (s : State) (sym : Symbol) :
    Res Err State :=
  match s.interpreter.lookup sym with
  | .primitive p => step_primop_aux deeper p s
  | .program body => run_aux deeper body s
  | .noOp => .ok s

/-- `State::interpret_symbol`, with fuel bounding the recursion depth of
nested `Program`/`Eval` expansion (the source recurses without bound). -/
def interpret_symbol : Nat → State → Symbol → Res Err State
  | 0 => fun _ _ => .crash "recursion fuel exhausted"
  | fuel + 1 => interpret_symbol_core (interpret_symbol fuel)

/-- `State::step_primop` at a given recursion depth. -/
def step_primop (fuel : Nat) (p : PrimOp) (s : State) : Res Err State :=
  step_primop_aux (interpret_symbol fuel) p s

/-- `State::run` at a given recursion depth. -/
def run (fuel : Nat) : List Symbol → State → Res Err State :=
  run_aux (interpret_symbol fuel)

/-- `State::new(Interpreter::default(), StringIO::new(input))` as used by
`run_with_input`. -/
def State.new (input : List Symbol) : State :=
  { stack := [], queue := [], interpreter := Interpreter.default,
    input := input, output := [] }

/-- Stack of a successful result. -/
def stack_of : Res Err State → Option (List Symbol) :=
  fun r => match r with
  | .ok s => some s.stack
  | _ => none

/-- Output buffer of a successful result. -/
def output_of : Res Err State → Option (List Symbol) :=
  fun r => match r with
  | .ok s => some s.output
  | _ => none

/-- Recorded body used to exercise in-body `Supplant`: the byte string
`";#35#98!b"`, which pushes the terminator `;`, builds `35` (`'#'`) and `98`
(`'b'`), binds `b` to the one-symbol program `#`, and then runs `b`. -/
def body_p : List Symbol := [59, 35, 51, 53, 35, 57, 56, 33, 98]

/-- A state whose interpreter additionally binds `'P'` (80) to the recorded
program `body_p`. -/
def supplant_state : State :=
  { stack := [], queue := [], interpreter := Interpreter.default.supplant 80 (.program body_p),
    input := [], output := [] }

end Emmental

namespace Mascarpone

/-- Mascarpone symbols are Unicode code points (`pub type Symbol = char` in
`src/mascarpone/src/lib.rs`). -/
abbrev Symbol := Char

/-- `STRING_LEFT_DELIM` (`'['`). -/
def STRING_LEFT_DELIM : Symbol := '['

/-- `STRING_RIGHT_DELIM` (`']'`). -/
def STRING_RIGHT_DELIM : Symbol := ']'

/-- The `'` symbol (written via its code point to keep the escape out of the
source text). -/
def quoteChar : Symbol := Char.ofNat 39

/-- The `{` symbol. -/
def lbraceChar : Symbol := Char.ofNat 123

/-- The `}` symbol. -/
def rbraceChar : Symbol := Char.ofNat 125

/-- The `Error` enum of `src/mascarpone/src/lib.rs` (the `IOError` variant
is unreachable in the embedded core: the `Input`/`Output` intrinsics are
`todo!()` in the source and modelled as crashes). -/
inductive Error where
  | noParent
  | nullInterpreter
  | emptyStack
  | wrongElementType
  | wrongInterpreterVariant
  | malformedString
  | ioError
deriving DecidableEq

/-- The `Intrinsic` enum of `src/mascarpone/src/operation.rs`. -/
inductive Intrinsic where
  | reify
  | deify
  | extract
  | install
  | getParent
  | setParent
  | create
  | expand
  | perform
  | null
  | uniform
  | quoteString
  | quoteSymbol
  | output
  | input
  | dup
  | discard
  | swap
  | noOp
deriving DecidableEq

mutual

/-- The `Operation` enum of `src/mascarpone/src/operation.rs`:
`Intrinsic(Intrinsic)` or `Program(Vec<Symbol>, Box<Interpreter>)`. -/
inductive Operation : Type where
  | intrinsic (i : Intrinsic)
  | program (body : List Char) (env : Interpreter)

/-- The `Interpreter` enum of `src/mascarpone/src/interpreter.rs`: the null
(absent) interpreter, or a defined interpreter with a parent and a variant.
The `Option<Interpreter>` appearing in the `state.rs` snapshot is identified
with this type (`None` is `null`). -/
inductive Interpreter : Type where
  | null
  | defined (parent : Interpreter) (variant : Variant)

/-- The `Variant` enum of `src/mascarpone/src/interpreter.rs`. -/
inductive Variant : Type where
  | initial
  | quoteString
  | quoteSymbol
  | mapping (table : OpTable) (dflt : Operation)

/-- `HashMap<Symbol, Operation>` as an association list (first binding wins
on lookup, insert replaces in place). -/
inductive OpTable : Type where
  | nil
  | cons (sym : Char) (op : Operation) (rest : OpTable)

end

/-- `HashMap::get`: first binding whose key matches. -/
def OpTable.get : OpTable → Char → Option Operation
  | .nil, _ => none
  | .cons k v rest, sym => if k = sym then some v else OpTable.get rest sym

/-- `HashMap::insert`: replace the binding for the key if present, else add
it. -/
def OpTable.insert : OpTable → Char → Operation → OpTable
  | .nil, k, v => .cons k v .nil
  | .cons k' v' rest, k, v =>
    if k' = k then .cons k v rest else .cons k' v' (OpTable.insert rest k v)

/-- `Intrinsic::SYMBOLS`: the canonical list of 18 `(intrinsic, symbol)`
pairs (note that `NoOp` has no entry). -/
def Intrinsic.SYMBOLS : List (Intrinsic × Char) :=
  [(.reify, 'v'), (.deify, '^'), (.extract, '>'), (.install, '<'),
   (.getParent, lbraceChar), (.setParent, rbraceChar), (.create, '*'),
   (.expand, '@'), (.perform, '!'), (.null, '0'), (.uniform, '1'),
   (.quoteString, '['), (.quoteSymbol, quoteChar), (.output, '.'),
   (.input, ','), (.dup, ':'), (.discard, '$'), (.swap, '/')]

/-- `Intrinsic::from_symbol`: find the pair with the given symbol. -/
def Intrinsic.from_symbol (sym : Char) : Option Intrinsic :=
  (Intrinsic.SYMBOLS.find? fun p => p.2 == sym).map fun p => p.1

/-- `Intrinsic::to_symbol`: find the pair with the given intrinsic.  The
source ends with `.expect("intrisic operation needs an associated symbol")`;
the `none` result models that panic (reached exactly by `NoOp`). -/
def Intrinsic.to_symbol (i : Intrinsic) : Option Char :=
  (Intrinsic.SYMBOLS.find? fun p => p.1 == i).map fun p => p.2

/-- `Operation::intrinsic_mapping`: collect `SYMBOLS` into a map from
symbol to intrinsic operation. -/
def Operation.intrinsic_mapping : OpTable :=
  Intrinsic.SYMBOLS.foldl (fun t p => t.insert p.2 (.intrinsic p.1)) .nil

/-- `Interpreter::from_variant`: a defined interpreter with a null parent. -/
def Interpreter.from_variant (v : Variant) : Interpreter :=
  .defined .null v

/-- `Interpreter::initial()`. -/
def Interpreter.initial : Interpreter := Interpreter.from_variant .initial

/-- `Interpreter::quote_string()`. -/
def Interpreter.quote_string : Interpreter := Interpreter.from_variant .quoteString

/-- `Interpreter::quote_symbol()`. -/
def Interpreter.quote_symbol : Interpreter := Interpreter.from_variant .quoteSymbol

/-- `Interpreter::uniform(op)`: empty mapping with the given default. -/
def Interpreter.uniform (op : Operation) : Interpreter :=
  Interpreter.from_variant (.mapping .nil op)

/-- `Interpreter::mapping(map)`: mapping with default `NoOp`. -/
def Interpreter.mapping (table : OpTable) : Interpreter :=
  Interpreter.from_variant (.mapping table (.intrinsic .noOp))

/-- `Interpreter::parent`: `None` for the null interpreter, otherwise the
parent field (which may itself be the null interpreter). -/
def Interpreter.parent : Interpreter → Option Interpreter
  | .null => none
  | .defined p _ => some p

/-- `Interpreter::set_parent`: overwrite the parent field of a defined
interpreter; the null interpreter is left unchanged. -/
def Interpreter.set_parent : Interpreter → Interpreter → Interpreter
  | .null, _ => .null
  | .defined _ v, newParent => .defined newParent v

/-- `Interpreter::extract(sym)`. -/
def Interpreter.extract (i : Interpreter) (sym : Char) : Res Error Operation :=
  match i with
  | .null => .err .nullInterpreter
  | .defined _ v =>
    match v with
    | .quoteString => .err .wrongInterpreterVariant
    | .quoteSymbol => .err .wrongInterpreterVariant
    | .initial => .ok (.intrinsic ((Intrinsic.from_symbol sym).getD .noOp))
    | .mapping table dflt => .ok ((table.get sym).getD dflt)

/-- `Interpreter::install(sym, op)`: on `Initial` the interpreter upgrades
in place to a `Mapping` seeded with the full intrinsic table. -/
def Interpreter.install (i : Interpreter) (sym : Char) (op : Operation) : Res Error Interpreter :=
  match i with
  | .null => .err .nullInterpreter
  | .defined p v =>
    match v with
    | .quoteString => .err .wrongInterpreterVariant
    | .quoteSymbol => .err .wrongInterpreterVariant
    | .initial =>
      .ok (.defined p (.mapping (Operation.intrinsic_mapping.insert sym op) (.intrinsic .noOp)))
    | .mapping table dflt => .ok (.defined p (.mapping (table.insert sym op) dflt))

/-- A stack element of `src/mascarpone/src/state.rs`: symbol, operation, or
interpreter (`Element::Interpreter(Option<Interpreter>)` in that snapshot;
the optional interpreter is identified with the possibly-`null`
`Interpreter` of `interpreter.rs`, which is what `operation.rs` pushes). -/
inductive Element : Type where
  | symbol (sym : Char)
  | operation (op : Operation)
  | interpreter (interp : Interpreter)

/-- The running state `State<IO>` of `src/mascarpone/src/state.rs`.  The IO
channel is omitted: the `Input`/`Output` intrinsics of this snapshot are
`todo!()` (modelled as crashes), so no reachable computation touches it. -/
structure State where
  stack : List Element
  interpreter : Interpreter

/-- `State::new`: empty stack, `Interpreter::default()` (that is,
`Interpreter::initial()`). -/
def State.new : State := { stack := [], interpreter := Interpreter.initial }

/-- `State::push_element`. -/
def State.push_element (s : State) (e : Element) : State :=
  { s with stack := e :: s.stack }

/-- `State::pop_element` (fails with `EmptyStack`). -/
def State.pop_element (s : State) : Res Error (Element × State) :=
  match s.stack with
  | [] => .err .emptyStack
  | e :: rest => .ok (e, { s with stack := rest })

/-- `State::peek_element`. -/
def State.peek_element (s : State) : Res Error Element :=
  match s.stack with
  | [] => .err .emptyStack
  | e :: _ => .ok e

/-- `State::pop_interpreter_nullable`: the popped element must be an
interpreter element, which may be the null interpreter. -/
def State.pop_interpreter_nullable (s : State) : Res Error (Interpreter × State) :=
  match s.pop_element with
  | .ok (.interpreter i, s1) => .ok (i, s1)
  | .ok (_, _) => .err .wrongElementType
  | .err e => .err e
  | .crash m => .crash m

/-- `State::pop_interpreter`: additionally fails with `NullInterpreter` on
the null interpreter. -/
def State.pop_interpreter (s : State) : Res Error (Interpreter × State) :=
  match s.pop_interpreter_nullable with
  | .ok (.null, _) => .err .nullInterpreter
  | .ok (.defined p v, s1) => .ok (.defined p v, s1)
  | .err e => .err e
  | .crash m => .crash m

/-- `State::pop_operation`. -/
def State.pop_operation (s : State) : Res Error (Operation × State) :=
  match s.pop_element with
  | .ok (.operation o, s1) => .ok (o, s1)
  | .ok (_, _) => .err .wrongElementType
  | .err e => .err e
  | .crash m => .crash m

/-- `State::pop_symbol`. -/
def State.pop_symbol (s : State) : Res Error (Symbol × State) :=
  match s.pop_element with
  | .ok (.symbol c, s1) => .ok (c, s1)
  | .ok (_, _) => .err .wrongElementType
  | .err e => .err e
  | .crash m => .crash m

/-- Loop of `State::pop_string`: pop symbols, tracking nesting, until a `[`
at depth 0 is reached; the accumulator is built front-wise. -/
def pop_string_go : List Element → Nat → List Char → Res Error (List Char × List Element)
  | [], _, _ => .err .emptyStack
  | .symbol sym :: rest, nesting, acc =>
    if sym = STRING_RIGHT_DELIM then pop_string_go rest (nesting + 1) (sym :: acc)
    else if sym = STRING_LEFT_DELIM then
      if nesting = 0 then .ok (acc, rest)
      else pop_string_go rest (nesting - 1) (sym :: acc)
    else pop_string_go rest nesting (sym :: acc)
  | .operation _ :: _, _, _ => .err .wrongElementType
  | .interpreter _ :: _, _, _ => .err .wrongElementType

/-- Repackaging of the loop result of `State::pop_string`: on success the
remaining stack becomes the state's stack. -/
def pop_string_finish : Res Error (List Char × List Element) → State → Res Error (List Char × State)
  | .ok (str, rest), s1 => .ok (str, { s1 with stack := rest })
  | .err e, _ => .err e
  | .crash m, _ => .crash m

/-- `State::pop_string`: the first popped symbol must be `]`, else the call
fails with `MalformedString`; then the nesting loop runs. -/
def State.pop_string (s : State) : Res Error (List Char × State) :=
  match s.pop_symbol with
  | .err e => .err e
  | .crash m => .crash m
  | .ok (sym, s1) =>
    if sym ≠ STRING_RIGHT_DELIM then .err .malformedString
    else pop_string_finish (pop_string_go s1.stack 0 []) s1

/-- `State::push_string`: push `[`, then each symbol in order, then `]`. -/
def State.push_string (s : State) (symbols : List Char) : State :=
  let s1 := s.push_element (.symbol '[')
  let s2 := symbols.foldl (fun st c => st.push_element (.symbol c)) s1
  s2.push_element (.symbol ']')

/-- `State::start_quote_string`: replace the current interpreter with a
fresh `QuoteString` interpreter whose parent is the old one. -/
def State.start_quote_string (s : State) : State :=
  { s with interpreter := Interpreter.quote_string.set_parent s.interpreter }

/-- `State::start_quote_symbol`: same with a fresh `QuoteSymbol`
interpreter. -/
def State.start_quote_symbol (s : State) : State :=
  { s with interpreter := Interpreter.quote_symbol.set_parent s.interpreter }

/-- `Intrinsic::execute`, parametrised by the entry point the `Perform` arm
uses for `state.pop_operation()?.execute(state)`.  The `Input`/`Output`
arms are `todo!()` in the source and crash; the `QuoteString`/`QuoteSymbol`
arms are translated exactly as written in `operation.rs` (they push the
fresh quote-mode interpreter onto the stack as an element). -/
def Intrinsic.execute_core (performOp : Operation → State → Res Error State) (intr : Intrinsic)
    (s : State) : Res Error State :=
  match intr with
  | .reify => .ok (s.push_element (.interpreter s.interpreter))
  | .deify => do
    let (i, s1) ← s.pop_interpreter
    pure { s1 with interpreter := i }
  | .extract => do
    let (sym, s1) ← s.pop_symbol
    let (interp, s2) ← s1.pop_interpreter
    let op ← interp.extract sym
    pure (s2.push_element (.operation op))
  | .install => do
    let (sym, s1) ← s.pop_symbol
    let (op, s2) ← s1.pop_operation
    let (interp, s3) ← s2.pop_interpreter
    let interp2 ← interp.install sym op
    pure (s3.push_element (.interpreter interp2))
  | .getParent => do
    let (interp, s1) ← s.pop_interpreter
    match interp.parent with
    | none => .err .noParent
    | some p => pure (s1.push_element (.interpreter p))
  | .setParent => do
    let (interp, s1) ← s.pop_interpreter
    let (newParent, s2) ← s1.pop_interpreter
    pure (s2.push_element (.interpreter (interp.set_parent newParent)))
  | .create => do
    let (interp, s1) ← s.pop_interpreter
    let (prog, s2) ← s1.pop_string
    pure (s2.push_element (.operation (.program prog interp)))
  | .expand => do
    let (op, s1) ← s.pop_operation
    match op with
    | .intrinsic i =>
      match i.to_symbol with
      | none => .crash "intrisic operation needs an associated symbol"
      | some c => pure ((s1.push_string [c]).push_element (.interpreter Interpreter.initial))
    | .program prog interp =>
      pure ((s1.push_string prog).push_element (.interpreter interp))
  | .perform =>
    match s.pop_operation with
    | .ok (op, s1) => performOp op s1
    | .err e => .err e
    | .crash m => .crash m
  | .null => .ok (s.push_element (.interpreter .null))
  | .uniform => do
    let (op, s1) ← s.pop_operation
    pure (s1.push_element (.interpreter (Interpreter.uniform op)))
  | .quoteString =>
    .ok ((s.push_element (.symbol STRING_LEFT_DELIM)).push_element
      (.interpreter Interpreter.quote_string))
  | .quoteSymbol => .ok (s.push_element (.interpreter Interpreter.quote_symbol))
  | .input => .crash "not yet implemented"
  | .output => .crash "not yet implemented"
  | .dup => do
    let e ← s.peek_element
    pure (s.push_element e)
  | .discard => do
    let (_, s1) ← s.pop_element
    pure s1
  | .swap => do
    let (a, s1) ← s.pop_element
    let (b, s2) ← s1.pop_element
    pure ((s2.push_element a).push_element b)
  | .noOp => .ok s

/-- `Operation::execute`, parametrised by the intrinsic executor: a
`Program` operation is `todo!()` in the source and crashes. -/
def Operation.execute_with (execIntr : Intrinsic → State → Res Error State) :
    Operation → State → Res Error State
  | .intrinsic i, s => execIntr i s
  | .program _ _, _ => .crash "not yet implemented"

/-- `Intrinsic::execute` with fuel bounding the `Perform` recursion. -/
def Intrinsic.execute : Nat → Intrinsic → State → Res Error State
  | 0 => Intrinsic.execute_core fun _ _ => .crash "recursion fuel exhausted"
  | fuel + 1 => Intrinsic.execute_core (Operation.execute_with (Intrinsic.execute fuel))

/-- `Operation::execute` with fuel. -/
def Operation.execute (fuel : Nat) : Operation → State → Res Error State :=
  Operation.execute_with (Intrinsic.execute fuel)

/-- `Interpreter::interpret(sym, state)`: the dispatch entry point of
`src/mascarpone/src/interpreter.rs`.  In the quote-mode arms the source
reads `self.parent().expect("parent should be defined")`; since
`parent()` of a `Defined` interpreter is always `Some` of its parent field,
the `expect` cannot fire there and the parent is used directly. -/
def Interpreter.interpret (fuel : Nat) (self : Interpreter) (sym : Char) (s : State) :
    Res Error State :=
  match self with
  | .null => .err .nullInterpreter
  | .defined p v =>
    match v with
    | .quoteString =>
      let s1 := s.push_element (.symbol sym)
      if sym = STRING_RIGHT_DELIM then .ok { s1 with interpreter := p }
      else if sym = STRING_LEFT_DELIM then .ok s1.start_quote_string
      else .ok s1
    | .quoteSymbol =>
      let s1 := s.push_element (.symbol sym)
      .ok { s1 with interpreter := p }
    | .initial => Intrinsic.execute fuel ((Intrinsic.from_symbol sym).getD .noOp) s
    | .mapping table dflt => Operation.execute fuel ((table.get sym).getD dflt) s

/-- `State::execute`: dispatch each program symbol through the interpreter
that is current at that moment (`self.interpreter.clone().interpret(sym,
self)` in a loop, with `?` early exit). -/
def State.execute (fuel : Nat) : List Char → State → Res Error State
  | [], s => .ok s
  | sym :: rest, s =>
    match Interpreter.interpret fuel s.interpreter sym s with
    | .ok s1 => State.execute fuel rest s1
    | .err e => .err e
    | .crash m => .crash m

/-- Checks whether a result is specifically the `NoParent` error. -/
def is_no_parent_err : Res Error State → Bool :=
  fun r => match r with
  | .err .noParent => true
  | _ => false

end Mascarpone

/-!
Helper lemmas shared by the claim theorems below.
-/

namespace Mascarpone

/-- The `NoParent` branch of the `GetParent` arm is unreachable: whatever
the top of the stack is, executing `GetParent` never produces that error
(a popped defined interpreter always has a parent field, and a null
interpreter fails the pop itself with `NullInterpreter`). -/
theorem get_parent_core_no_parent (performOp : Operation → State → Res Error State) :
    ∀ (stk : List Element) (cur : Interpreter),
      is_no_parent_err (Intrinsic.execute_core performOp .getParent ⟨stk, cur⟩) = false
  | [], _ => rfl
  | .symbol _ :: _, _ => rfl
  | .operation _ :: _, _ => rfl
  | .interpreter .null :: _, _ => rfl
  | .interpreter (.defined _ _) :: _, _ => rfl

/-- Folding `push_element` over a symbol list prepends the reversed symbol
elements to the stack and leaves the interpreter unchanged. -/
theorem push_fold_stack :
    ∀ (l : List Char) (st : State),
      ((l.foldl (fun acc c => acc.push_element (.symbol c)) st).stack
          = (l.map Element.symbol).reverse ++ st.stack)
      ∧ (l.foldl (fun acc c => acc.push_element (.symbol c)) st).interpreter = st.interpreter
  | [], _ => ⟨rfl, rfl⟩
  | c :: l, st => by
    have ih := push_fold_stack l (st.push_element (.symbol c))
    refine ⟨?_, ?_⟩
    · rw [List.foldl_cons, ih.1]
      simp [State.push_element, List.append_assoc]
    · rw [List.foldl_cons, ih.2]
      rfl

/-- Running the `pop_string` loop over delimiter-free symbols accumulates
them (reversed onto the accumulator) until the closing `[` marker. -/
theorem pop_go_no_delims :
    ∀ (t : List Char) (acc : List Char) (rest : List Element),
      (∀ c ∈ t, c ≠ '[' ∧ c ≠ ']') →
      pop_string_go (t.map Element.symbol ++ Element.symbol '[' :: rest) 0 acc
        = .ok (t.reverse ++ acc, rest)
  | [], acc, rest, _ => rfl
  | c :: t, acc, rest, h => by
    have hc := h c (List.mem_cons_self c t)
    have ih := pop_go_no_delims t (c :: acc) rest fun x hx => h x (List.mem_cons_of_mem c hx)
    simp only [List.map_cons, List.cons_append, pop_string_go, STRING_RIGHT_DELIM,
      STRING_LEFT_DELIM]
    rw [if_neg hc.2, if_neg hc.1]
    simp only [List.append_eq]
    rw [ih]
    simp

/-- `pop_string` on a stack of the shape `]`, delimiter-free symbols, `[`,
remainder returns those symbols reversed and consumes through the `[`. -/
theorem pop_string_append (t : List Char) (rest : List Element) (cur : Interpreter)
    (h : ∀ c ∈ t, c ≠ '[' ∧ c ≠ ']') :
    State.pop_string ⟨.symbol ']' :: (t.map Element.symbol ++ Element.symbol '[' :: rest), cur⟩
      = .ok (t.reverse, ⟨rest, cur⟩) := by
  show pop_string_finish
      (pop_string_go (t.map Element.symbol ++ Element.symbol '[' :: rest) 0 [])
      ⟨t.map Element.symbol ++ Element.symbol '[' :: rest, cur⟩
    = .ok (t.reverse, ⟨rest, cur⟩)
  rw [pop_go_no_delims t [] rest h]
  simp [pop_string_finish]

end Mascarpone

/-!
Claim theorems.
-/

/-- Claim C1 (code_bug evidence).  In the source as written, the
`QuoteString` intrinsic pushes the `[` marker and then pushes the fresh
(parentless) `QuoteString` interpreter *onto the stack as an element*,
leaving the current interpreter untouched, so running `[abc]` from the
initial state dispatches `a`, `b`, `c`, `]` as `NoOp` through `Initial` and
leaves the stack `[Interpreter(QuoteString), Symbol '[']` — not the five
symbol elements the claim states.  The second conjunct shows the
repository's own test program `[o[ll]eh].........` panicking (the `Output`
intrinsic is `todo!()`) instead of producing the output the test asserts,
which is what marks this a bug in the code rather than in the claim. -/
theorem mascarpone_quote_string_code_behavior :
    Mascarpone.State.execute 9 ['[', 'a', 'b', 'c', ']'] Mascarpone.State.new
        = .ok { stack := [.interpreter Mascarpone.Interpreter.quote_string, .symbol '['],
                interpreter := Mascarpone.Interpreter.initial }
    ∧ Mascarpone.State.execute 9
        ['[', 'o', '[', 'l', 'l', ']', 'e', 'h', ']',
         '.', '.', '.', '.', '.', '.', '.', '.', '.'] Mascarpone.State.new
        = .crash "not yet implemented" :=
  ⟨rfl, rfl⟩

/-- Claim C2 (code_bug evidence).  The `QuoteSymbol` intrinsic likewise
pushes the fresh quote interpreter onto the stack instead of installing it
as the current interpreter, so running `'a` leaves a single Interpreter
element (not the Symbol element `a` the claim states) and the next symbol
is still dispatched through `Initial`. -/
theorem mascarpone_quote_symbol_code_behavior :
    Mascarpone.State.execute 9 [Mascarpone.quoteChar, 'a'] Mascarpone.State.new
      = .ok { stack := [.interpreter Mascarpone.Interpreter.quote_symbol],
              interpreter := Mascarpone.Interpreter.initial } :=
  rfl

/-- Claim C3 (code_bug evidence).  Running `[^]` from the initial state:
`[` pushes the marker and a parentless `QuoteString` interpreter element,
`^` (Deify) installs that element as the current interpreter, and `]` is
then dispatched in quote-string mode, which restores the current
interpreter to the parent — the null interpreter.  Every dispatch returns
`Ok`, yet the final current interpreter is null, violating the invariant
the claim states. -/
theorem mascarpone_null_current_interpreter_reachable :
    Mascarpone.State.execute 9 ['[', '^', ']'] Mascarpone.State.new
      = .ok { stack := [.symbol ']', .symbol '['], interpreter := .null } :=
  rfl

/-- Claim C4 (counterexample).  `Interpreter::initial()` has the null
interpreter as its parent field — the spec's "absent" parent — yet
executing `GetParent` on it succeeds, pushing the null interpreter as an
element, instead of failing with `NoParent` as the claim requires. -/
theorem mascarpone_get_parent_null_parent_succeeds :
    Mascarpone.Intrinsic.execute 9 .getParent
        { stack := [.interpreter Mascarpone.Interpreter.initial],
          interpreter := Mascarpone.Interpreter.initial }
      = .ok { stack := [.interpreter .null], interpreter := Mascarpone.Interpreter.initial } :=
  rfl

/-- Claim C4 (amended).  `GetParent` pops an interpreter `i` and pushes
`i`'s parent field as an element — including when that parent is the null
interpreter; popping a null interpreter fails with `NullInterpreter`; and
no stack whatsoever makes `GetParent` fail with `NoParent` (that branch
guards only the unreachable case of a popped null interpreter, which the
pop itself already rejects). -/
theorem mascarpone_get_parent_behavior :
    (∀ (fuel : Nat) (p : Mascarpone.Interpreter) (v : Mascarpone.Variant)
        (rest : List Mascarpone.Element) (cur : Mascarpone.Interpreter),
        Mascarpone.Intrinsic.execute fuel .getParent
            { stack := .interpreter (.defined p v) :: rest, interpreter := cur }
          = .ok { stack := .interpreter p :: rest, interpreter := cur })
    ∧ (∀ (fuel : Nat) (rest : List Mascarpone.Element) (cur : Mascarpone.Interpreter),
        Mascarpone.Intrinsic.execute fuel .getParent
            { stack := .interpreter .null :: rest, interpreter := cur }
          = .err .nullInterpreter)
    ∧ (∀ (fuel : Nat) (s : Mascarpone.State),
        Mascarpone.is_no_parent_err (Mascarpone.Intrinsic.execute fuel .getParent s) = false) := by
  refine ⟨?_, ?_, ?_⟩
  · intro fuel p v rest cur
    cases fuel <;> rfl
  · intro fuel rest cur
    cases fuel <;> rfl
  · intro fuel s
    obtain ⟨stk, cur⟩ := s
    cases fuel <;> exact Mascarpone.get_parent_core_no_parent _ stk cur

/-- Claim C4 witness: the amended theorem applied at a concrete input. -/
theorem mascarpone_get_parent_behavior_witness :
    Mascarpone.Intrinsic.execute 3 .getParent
        { stack := [.interpreter (.defined .null .initial)],
          interpreter := Mascarpone.Interpreter.initial }
      = .ok { stack := [.interpreter .null], interpreter := Mascarpone.Interpreter.initial } :=
  mascarpone_get_parent_behavior.1 3 .null .initial [] Mascarpone.Interpreter.initial

/-- Claim C5 (counterexample).  `pop_string` on an empty stack fails with
`EmptyStack`, not with the `MalformedString` error the claim states. -/
theorem mascarpone_pop_string_empty_not_malformed :
    Mascarpone.State.pop_string Mascarpone.State.new = .err .emptyStack
    ∧ Mascarpone.Error.emptyStack ≠ Mascarpone.Error.malformedString :=
  ⟨rfl, by decide⟩

/-- Claim C5 (amended).  `pop_string` fails whenever the top of the stack
is not the `]` symbol, but the error kind depends on the shape:
`MalformedString` only when the top is a symbol other than `]`;
`EmptyStack` when the stack is empty; `WrongElementType` when the top is an
Operation or Interpreter element. -/
theorem mascarpone_pop_string_error_kinds :
    (∀ cur : Mascarpone.Interpreter,
        Mascarpone.State.pop_string { stack := [], interpreter := cur } = .err .emptyStack)
    ∧ (∀ (c : Char) (rest : List Mascarpone.Element) (cur : Mascarpone.Interpreter),
        c ≠ ']' →
        Mascarpone.State.pop_string { stack := .symbol c :: rest, interpreter := cur }
          = .err .malformedString)
    ∧ (∀ (o : Mascarpone.Operation) (rest : List Mascarpone.Element)
        (cur : Mascarpone.Interpreter),
        Mascarpone.State.pop_string { stack := .operation o :: rest, interpreter := cur }
          = .err .wrongElementType)
    ∧ (∀ (i : Mascarpone.Interpreter) (rest : List Mascarpone.Element)
        (cur : Mascarpone.Interpreter),
        Mascarpone.State.pop_string { stack := .interpreter i :: rest, interpreter := cur }
          = .err .wrongElementType) := by
  refine ⟨fun _ => rfl, ?_, fun _ _ _ => rfl, fun _ _ _ => rfl⟩
  intro c rest cur h
  show (if c ≠ Mascarpone.STRING_RIGHT_DELIM then Res.err Mascarpone.Error.malformedString
        else Mascarpone.pop_string_finish (Mascarpone.pop_string_go rest 0 [])
          { stack := rest, interpreter := cur })
      = .err .malformedString
  simp only [Mascarpone.STRING_RIGHT_DELIM]
  rw [if_pos h]

/-- Claim C5 witness: the amended theorem applied at a concrete input. -/
theorem mascarpone_pop_string_error_kinds_witness :
    Mascarpone.State.pop_string
        { stack := [.symbol 'a'], interpreter := Mascarpone.Interpreter.initial }
      = .err .malformedString :=
  mascarpone_pop_string_error_kinds.2.1 'a' [] Mascarpone.Interpreter.initial (by decide)

/-- Claim C6.  For every symbol sequence with no `[` and no `]`,
`push_string` followed by `pop_string` on the otherwise empty initial
state succeeds and returns exactly the sequence, restoring the state. -/
theorem mascarpone_push_pop_string_roundtrip :
    ∀ (s : List Char), '[' ∉ s → ']' ∉ s →
      Mascarpone.State.pop_string (Mascarpone.State.push_string Mascarpone.State.new s)
        = .ok (s, Mascarpone.State.new) := by
  intro s h1 h2
  have hF := Mascarpone.push_fold_stack s
    (Mascarpone.State.push_element Mascarpone.State.new (.symbol '['))
  have hmem : ∀ c ∈ s.reverse, c ≠ '[' ∧ c ≠ ']' := by
    intro c hc
    rw [List.mem_reverse] at hc
    exact ⟨fun e => h1 (e ▸ hc), fun e => h2 (e ▸ hc)⟩
  have harg : Mascarpone.State.push_string Mascarpone.State.new s
      = ⟨.symbol ']' :: (s.reverse.map Mascarpone.Element.symbol
          ++ Mascarpone.Element.symbol '[' :: []), Mascarpone.Interpreter.initial⟩ := by
    show Mascarpone.State.mk _ _ = _
    rw [hF.1, hF.2]
    rw [List.map_reverse]
    rfl
  rw [harg, Mascarpone.pop_string_append s.reverse [] Mascarpone.Interpreter.initial hmem,
    List.reverse_reverse]
  rfl

/-- Claim C6 witness: the round-trip theorem applied at `[a, b, c]`. -/
theorem mascarpone_push_pop_string_roundtrip_witness :
    Mascarpone.State.pop_string
        (Mascarpone.State.push_string Mascarpone.State.new ['a', 'b', 'c'])
      = .ok (['a', 'b', 'c'], Mascarpone.State.new) :=
  mascarpone_push_pop_string_roundtrip ['a', 'b', 'c'] (by decide) (by decide)

/-- Claim C7.  Dispatching a symbol bound to a `Program` operation runs the
captured body through `run`, which re-reads the then-current interpreter of
the threaded state for every body symbol — there is no captured
environment.  Concretely: in `supplant_state`, the symbol 98 (`b`) is
unbound (`NoOp`), the body bound to 80 (`P`) supplants 98 with the
one-symbol program `#` and then runs 98, and the final stack `[0]` shows
the later body symbol was dispatched through the mutated interpreter. -/
theorem emmental_program_uses_current_interpreter :
    (∀ (fuel : Nat) (s : Emmental.State) (sym : Emmental.Symbol) (body : List Emmental.Symbol),
        s.interpreter.lookup sym = .program body →
        Emmental.interpret_symbol (fuel + 1) s sym = Emmental.run fuel body s)
    ∧ Emmental.supplant_state.interpreter.lookup 98 = .noOp
    ∧ Emmental.stack_of (Emmental.interpret_symbol 9 Emmental.supplant_state 80) = some [0] := by
  refine ⟨?_, rfl, rfl⟩
  intro fuel s sym body h
  show Emmental.interpret_symbol_core (Emmental.interpret_symbol fuel) s sym
    = Emmental.run fuel body s
  unfold Emmental.interpret_symbol_core
  rw [h]
  rfl

/-- Claim C7 witness: the dispatch equation applied at a concrete state
whose interpreter binds 80 to a program body. -/
theorem emmental_program_uses_current_interpreter_witness :
    Emmental.interpret_symbol 1 Emmental.supplant_state 80
      = Emmental.run 0 Emmental.body_p Emmental.supplant_state :=
  emmental_program_uses_current_interpreter.1 0 Emmental.supplant_state 80 Emmental.body_p rfl

/-- Claim C8.  Emmental `Digit(d)` pops `s` and pushes `(s*10 + d) % 256`,
`Add` pops `b` then `a` and pushes `(a + b) % 256`; consequently running
`#123` leaves 123 on top of the stack and `#255#1+.` with empty input
outputs the single byte 0. -/
theorem emmental_arithmetic_mod256 :
    (∀ (fuel d sym : Nat) (st q : List Emmental.Symbol) (interp : Emmental.Interpreter)
        (inp out : List Emmental.Symbol),
        Emmental.step_primop fuel (.digit d) ⟨sym :: st, q, interp, inp, out⟩
          = .ok ⟨(sym * 10 + d) % 256 :: st, q, interp, inp, out⟩)
    ∧ (∀ (fuel b a : Nat) (st q : List Emmental.Symbol) (interp : Emmental.Interpreter)
        (inp out : List Emmental.Symbol),
        Emmental.step_primop fuel .add ⟨b :: a :: st, q, interp, inp, out⟩
          = .ok ⟨(a + b) % 256 :: st, q, interp, inp, out⟩)
    ∧ Emmental.stack_of (Emmental.run 9 [35, 49, 50, 51] (Emmental.State.new [])) = some [123]
    ∧ Emmental.output_of (Emmental.run 9 [35, 50, 53, 53, 35, 49, 43, 46] (Emmental.State.new []))
        = some [0] := by
  refine ⟨?_, fun _ _ _ _ _ _ _ _ => rfl, rfl, rfl⟩
  intro fuel d sym st q interp inp out
  show Res.ok (⟨Emmental.wrapping_add (Emmental.wrapping_mul sym 10) d :: st,
      q, interp, inp, out⟩ : Emmental.State) = _
  unfold Emmental.wrapping_add Emmental.wrapping_mul
  rw [Nat.mod_add_mod]

/-- Claim C8 witness: the `Digit` equation applied at a concrete input. -/
theorem emmental_arithmetic_mod256_witness :
    Emmental.step_primop 9 (.digit 3)
        ⟨[7], [], Emmental.Interpreter.default, [], []⟩
      = .ok ⟨[(7 * 10 + 3) % 256], [], Emmental.Interpreter.default, [], []⟩ :=
  emmental_arithmetic_mod256.1 9 3 7 [] [] Emmental.Interpreter.default [] []

/-- Claim C9.  The Emmental `Log2` primitive pops `n` and pushes 8 when
`n = 0` and `⌊log2 n⌋` otherwise; the floor-log characterisation
`2 ^ r ≤ n < 2 ^ (r + 1)` pins down the pushed value for `n > 0`.  (The
source computes `(n as f64).log2().floor() as u8`, which coincides with
`Nat.log2` on every byte `1..=255`; the `n < 256` hypothesis records that
byte domain.) -/
theorem emmental_log2_floor :
    ∀ (fuel n : Nat) (st q : List Emmental.Symbol) (interp : Emmental.Interpreter)
      (inp out : List Emmental.Symbol),
      n < 256 →
      (Emmental.step_primop fuel .log2 ⟨n :: st, q, interp, inp, out⟩
          = .ok ⟨(if n = 0 then 8 else Nat.log2 n) :: st, q, interp, inp, out⟩)
      ∧ (0 < n → 2 ^ Nat.log2 n ≤ n ∧ n < 2 ^ (Nat.log2 n + 1)) := by
  intro fuel n st q interp inp out _
  refine ⟨rfl, ?_⟩
  intro hn
  rw [Nat.log2_eq_log_two]
  exact ⟨Nat.pow_log_le_self 2 hn.ne', Nat.lt_pow_succ_log_self (by norm_num) n⟩

/-- Claim C9 witness: the `Log2` theorem applied at `n = 8`. -/
theorem emmental_log2_floor_witness :
    (Emmental.step_primop 9 .log2 ⟨[8], [], Emmental.Interpreter.default, [], []⟩
        = .ok ⟨[if (8 : Nat) = 0 then 8 else Nat.log2 8], [],
            Emmental.Interpreter.default, [], []⟩)
    ∧ (0 < (8 : Nat) → 2 ^ Nat.log2 8 ≤ 8 ∧ (8 : Nat) < 2 ^ (Nat.log2 8 + 1)) :=
  emmental_log2_floor 9 8 [] [] Emmental.Interpreter.default [] [] (by decide)

/-- Claim C10.  `Intrinsic::to_symbol` yields a symbol exactly for the 18
intrinsics listed in `Intrinsic::SYMBOLS` (and the yielded pair is in that
table); on `NoOp` it is the `expect` panic (modelled as `none`).  `NoOp`
operations are reachable on the stack (extracting an unmapped symbol from
`Initial` yields one), and executing `Expand` on `Intrinsic(NoOp)` aborts
with the `expect` panic message instead of a typed error. -/
theorem mascarpone_to_symbol_totality :
    (∀ i : Mascarpone.Intrinsic, (Mascarpone.Intrinsic.to_symbol i).isSome ↔ i ≠ .noOp)
    ∧ (∀ (i : Mascarpone.Intrinsic) (c : Char),
        Mascarpone.Intrinsic.to_symbol i = some c → (i, c) ∈ Mascarpone.Intrinsic.SYMBOLS)
    ∧ Mascarpone.Intrinsic.to_symbol .noOp = none
    ∧ Mascarpone.Interpreter.extract Mascarpone.Interpreter.initial 'z'
        = .ok (.intrinsic .noOp)
    ∧ Mascarpone.Intrinsic.execute 9 .expand
        { stack := [.operation (.intrinsic .noOp)], interpreter := Mascarpone.Interpreter.initial }
        = .crash "intrisic operation needs an associated symbol" := by
  refine ⟨?_, ?_, rfl, rfl, rfl⟩
  · intro i
    cases i <;> decide
  · intro i c h
    cases i <;> first
      | (injection h with h2; subst h2; decide)
      | exact Option.noConfusion h

/-- Claim C10 witness: the membership implication applied at `Reify`. -/
theorem mascarpone_to_symbol_totality_witness :
    (Mascarpone.Intrinsic.reify, 'v') ∈ Mascarpone.Intrinsic.SYMBOLS :=
  mascarpone_to_symbol_totality.2.1 .reify 'v' rfl
